import Mathlib

/-!
Shallow embedding of the Budget Manager Flask backend
(src/server.py, src/responses.py, src/constants.py).

Modelling conventions:
* A decoded JSON request body is a structure whose fields have type
  `Option (Option α)`: the outer `Option` is key presence (`none` = the key
  is absent from the body), the inner one is JSON `null`.  `pyGet` is
  Python's `dict.get(k)` (absent and null both give `none`), `pyGetD` is
  `dict.get(k, default)` (the default is used only when the key is absent).
* The SQLite store is a pair of lists of rows plus AUTOINCREMENT counters.
  Column nullability follows the schema in `init_db`: `users.username`,
  `users.password`, `expenses.description/amount/date/category` are
  NOT NULL; `expenses.title` and `expenses.user_id` are nullable.
  Executing an INSERT/UPDATE that would put NULL in a NOT NULL column, or
  violate the UNIQUE constraint on `users.username`, raises
  `sqlite3.IntegrityError`; this is modelled by the `Outcome.raised`
  constructor (the handler has no try/except, the exception escapes before
  `commit`, so the store is unchanged).
* Field values are modelled as JSON strings (ints for `user_id` / ids),
  matching every payload the spec and handlers deal with.
* `date.today()` is an opaque input `today : String` to `create_expense`.
-/

namespace BudgetManager

/-- A primitive JSON value appearing inside a response `data` object. -/
inductive PrimVal where
  | vint (n : Int)
  | vstr (s : String)
  | vnull
deriving DecidableEq, Repr

/-- The `data` field of a response envelope: JSON `null` or a flat object. -/
inductive DataVal where
  | dnull
  | dobj (fields : List (String × PrimVal))
deriving DecidableEq, Repr

/-- A JSON response body.  `data = none` means the body has no `data` key at
all (the error envelopes built inline in server.py and in
`not_found_response` carry only `success` and `message`). -/
structure ApiBody where
  success : Bool
  message : String
  data : Option DataVal
deriving DecidableEq, Repr

/-- What a request handler produces: an HTTP response (status code paired
with a JSON body), or an uncaught Python exception. -/
inductive Outcome where
  | resp (r : Nat × ApiBody)
  | raised (e : String)
deriving DecidableEq, Repr

/-- responses.py `success_response(message, data=None)`; call sites that use
the Python default pass `DataVal.dnull` explicitly. -/
def success_response (message : String) (data : DataVal) : Nat × ApiBody :=
  (200, ⟨true, message, some data⟩)

/-- responses.py `not_found_response(entity)`. -/
def not_found_response (entity : String) : Nat × ApiBody :=
  (404, ⟨false, entity ++ " not found", none⟩)

/-- constants.py `VALID_EXPENSE_CATEGORIES`. -/
def VALID_EXPENSE_CATEGORIES : List String := ["Food", "Education", "Entertainment"]

/-- A row of the `users` table. -/
structure UserRow where
  id : Nat
  username : String
  password : String
deriving DecidableEq, Repr

/-- A row of the `expenses` table (`title` and `user_id` are the nullable
columns of the schema). -/
structure ExpenseRow where
  id : Nat
  user_id : Option Int
  title : Option String
  amount : String
  category : String
  date : String
  description : String
deriving DecidableEq, Repr

/-- The SQLite database: both tables plus their AUTOINCREMENT counters. -/
structure Store where
  users : List UserRow
  expenses : List ExpenseRow
  nextUserId : Nat
  nextExpenseId : Nat
deriving DecidableEq, Repr

/-- A freshly initialised database (`init_db` on a new file; AUTOINCREMENT
ids start at 1). -/
def Store.empty : Store := ⟨[], [], 1, 1⟩

/-- Python `data.get(k)`: `none` when the key is absent or its value null. -/
def pyGet (field : Option (Option α)) : Option α := field.getD none

/-- Python `data.get(k, dflt)`: the default is used only when the key is
absent; a key present with value null yields `none`. -/
def pyGetD (field : Option (Option α)) (dflt : Option α) : Option α :=
  field.getD dflt

/-- Python truthiness of an optional string (`None` and `""` are falsy). -/
def pyTruthy : Option String → Bool
  | none => false
  | some s => s ≠ ""

/-- Python `v in xs` where `v` is an optional string: `None` equals no
string, so membership is plain list membership on the wrapped value. -/
def optMem : Option String → List String → Bool
  | none, _ => false
  | some s, xs => xs.contains s

/-- Decoded JSON body for the user endpoints. -/
structure UserBody where
  username : Option (Option String)
  password : Option (Option String)
deriving DecidableEq, Repr

/-- Decoded JSON body for the expense endpoints.  A `date` key is included
because callers may send one; no handler ever reads it. -/
structure ExpenseBody where
  title : Option (Option String)
  description : Option (Option String)
  amount : Option (Option String)
  category : Option (Option String)
  user_id : Option (Option Int)
  date : Option (Option String)
deriving DecidableEq, Repr

/-- server.py `register_user` (POST /api/register): INSERT into `users`.
NULL username/password violates NOT NULL, a duplicate username violates
UNIQUE; either raises before commit. -/
def register_user (s : Store) (body : UserBody) : Store × Outcome :=
  let username := pyGet body.username
  let password := pyGet body.password
  match username, password with
  | some u, some p =>
      if s.users.any (fun r => r.username == u) then
        (s, .raised "IntegrityError")
      else
        ({ s with
            users := s.users ++ [⟨s.nextUserId, u, p⟩],
            nextUserId := s.nextUserId + 1 },
         .resp (success_response "User registered successfully" .dnull))
  | _, _ => (s, .raised "IntegrityError")

/-- The 401 envelope built inline in server.py `login_user`. -/
def invalid_credentials_response : Nat × ApiBody :=
  (401, ⟨false, "Invalid Credentials", none⟩)

/-- server.py `login_user` (POST /api/login): SELECT by username, then
compare the stored password with the supplied one; both a missing user and
a mismatching password fall to the same `else` branch. -/
def login_user (s : Store) (body : UserBody) : Store × Outcome :=
  let username := pyGet body.username
  let password := pyGet body.password
  match s.users.find? (fun r => some r.username == username) with
  | some user =>
      if some user.password == password then
        (s, .resp (success_response "Login successful"
              (.dobj [("user_id", .vint (Int.ofNat user.id)),
                      ("username", .vstr user.username)])))
      else
        (s, .resp invalid_credentials_response)
  | none => (s, .resp invalid_credentials_response)

/-- server.py `get_user` (GET /api/users/<id>): the success payload is built
from `id` and `username` only. -/
def get_user (s : Store) (user_id : Nat) : Outcome :=
  match s.users.find? (fun r => r.id == user_id) with
  | some user =>
      .resp (success_response "User retrieved successfully"
        (.dobj [("id", .vint (Int.ofNat user.id)),
                ("username", .vstr user.username)]))
  | none => .resp (not_found_response "User")

/-- server.py `update_user` (PUT /api/users/<id>): existence check first,
then an unconditional overwrite of both columns with `data.get` values
(NULL raises NOT NULL, a clash with another row's username raises UNIQUE). -/
def update_user (s : Store) (user_id : Nat) (body : UserBody) : Store × Outcome :=
  let username := pyGet body.username
  let password := pyGet body.password
  match s.users.find? (fun r => r.id == user_id) with
  | none => (s, .resp (not_found_response "User"))
  | some _ =>
      match username, password with
      | some u, some p =>
          if s.users.any (fun r => r.username == u && r.id != user_id) then
            (s, .raised "IntegrityError")
          else
            ({ s with users :=
                s.users.map (fun r => if r.id == user_id then ⟨r.id, u, p⟩ else r) },
             .resp (success_response "User updated successfully" .dnull))
      | _, _ => (s, .raised "IntegrityError")

/-- server.py `delete_user` (DELETE /api/users/<id>). -/
def delete_user (s : Store) (user_id : Nat) : Store × Outcome :=
  match s.users.find? (fun r => r.id == user_id) with
  | none => (s, .resp (not_found_response "User"))
  | some _ =>
      ({ s with users := s.users.filter (fun r => !(r.id == user_id)) },
       .resp (success_response "User deleted successfully" .dnull))

/-- The 400 envelope built inline in `create_expense` and `update_expense`:
`f"Invalid category. Must be one of: {', '.join(VALID_EXPENSE_CATEGORIES)}"`. -/
def invalid_category_response : Nat × ApiBody :=
  (400, ⟨false,
    "Invalid category. Must be one of: " ++
      String.intercalate ", " VALID_EXPENSE_CATEGORIES, none⟩)

/-- server.py `create_expense` (POST /api/expenses): reads title,
description, amount, category, user_id from the body (never a date — the
date is `date.today()`), rejects `category not in VALID_EXPENSE_CATEGORIES`
with 400, then INSERTs; NULL in amount/description violates NOT NULL. -/
def create_expense (s : Store) (today : String) (body : ExpenseBody) : Store × Outcome :=
  let title := pyGet body.title
  let description := pyGet body.description
  let amount := pyGet body.amount
  let category := pyGet body.category
  let user_id := pyGet body.user_id
  let date_str := today
  if !(optMem category VALID_EXPENSE_CATEGORIES) then
    (s, .resp invalid_category_response)
  else
    match amount, category, description with
    | some a, some c, some d =>
        ({ s with
            expenses := s.expenses ++
              [⟨s.nextExpenseId, user_id, title, a, c, date_str, d⟩],
            nextExpenseId := s.nextExpenseId + 1 },
         .resp (success_response "Expense created successfully" .dnull))
    | _, _, _ => (s, .raised "IntegrityError")

/-- server.py `update_expense` (PUT /api/expenses/<id>): rejects a truthy
category outside the valid set with 400, then checks existence (404), then
merges with `data.get(k, existing[k])` — a key absent from the body falls
back to the stored value, a key present (even with value null) is taken
from the body; the date is always `existing_expense["date"]`.  NULL in
amount/category/description violates NOT NULL and raises before commit. -/
def update_expense (s : Store) (expense_id : Nat) (body : ExpenseBody) : Store × Outcome :=
  let category0 := pyGet body.category
  if pyTruthy category0 && !(optMem category0 VALID_EXPENSE_CATEGORIES) then
    (s, .resp invalid_category_response)
  else
    match s.expenses.find? (fun r => r.id == expense_id) with
    | none => (s, .resp (not_found_response "Expense"))
    | some ex =>
        let user_id := pyGetD body.user_id ex.user_id
        let title := pyGetD body.title ex.title
        let amount := pyGetD body.amount (some ex.amount)
        let category := pyGetD body.category (some ex.category)
        let description := pyGetD body.description (some ex.description)
        let date_str := ex.date
        match amount, category, description with
        | some a, some c, some d =>
            ({ s with expenses :=
                s.expenses.map (fun r =>
                  if r.id == expense_id
                  then ⟨r.id, user_id, title, a, c, date_str, d⟩ else r) },
             .resp (success_response "Expense updated successfully" .dnull))
        | _, _, _ => (s, .raised "IntegrityError")

/-- server.py `delete_expense` (DELETE /api/expenses/<id>). -/
def delete_expense (s : Store) (expense_id : Nat) : Store × Outcome :=
  match s.expenses.find? (fun r => r.id == expense_id) with
  | none => (s, .resp (not_found_response "Expense"))
  | some _ =>
      ({ s with expenses := s.expenses.filter (fun r => !(r.id == expense_id)) },
       .resp (success_response "Expense deleted successfully" .dnull))

/-! Concrete fixtures used by witnesses and counterexamples. -/

/-- A well-formed creation body with category `"Food"`. -/
def foodBody : ExpenseBody :=
  ⟨some (some "Lunch"), some (some "Business lunch"), some (some "25.50"),
   some (some "Food"), some (some 1), none⟩

/-- An update body carrying only an invalid category `"Snacks"`. -/
def snacksBody : ExpenseBody :=
  ⟨none, none, none, some (some "Snacks"), none, none⟩

/-- An update body carrying only an amount. -/
def amountOnlyBody (a : String) : ExpenseBody :=
  ⟨none, none, some (some a), none, none, none⟩

/-- The store after creating one `"Food"` expense in a fresh database. -/
def foodStore : Store := (create_expense Store.empty "2026-10-12" foodBody).1

/-! Helper lemmas about the handlers, shared by several developments. -/

/-- `find?` never succeeds on the complement of its own filter. -/
lemma find?_filter_not {α : Type} (l : List α) (p : α → Bool) :
    (l.filter (fun r => !(p r))).find? p = none := by
  rw [List.find?_eq_none]
  intro x hx
  simp only [List.mem_filter, Bool.not_eq_true'] at hx
  simp [hx.2]

/-- `find?` over an appended singleton, when nothing on the left matches. -/
lemma find?_append_single {α : Type} {l : List α} {p : α → Bool} {x : α}
    (h : ∀ a ∈ l, p a = false) (hx : p x = true) :
    (l ++ [x]).find? p = some x := by
  rw [List.find?_append]
  have hl : l.find? p = none := by
    rw [List.find?_eq_none]; intro a ha; simp [h a ha]
  simp [hl, List.find?, hx]

/-- `create_expense` answers the inline 400 envelope and leaves the store
untouched whenever `data.get("category")` fails the membership test. -/
lemma create_expense_rejects {s : Store} {today : String} {body : ExpenseBody}
    (h : optMem (pyGet body.category) VALID_EXPENSE_CATEGORIES = false) :
    create_expense s today body = (s, .resp invalid_category_response) := by
  simp [create_expense, h]

/-- `update_expense` answers the inline 400 envelope and leaves the store
untouched whenever `data.get("category")` is truthy and fails membership. -/
lemma update_expense_rejects {s : Store} {expense_id : Nat} {body : ExpenseBody}
    (h1 : pyTruthy (pyGet body.category) = true)
    (h2 : optMem (pyGet body.category) VALID_EXPENSE_CATEGORIES = false) :
    update_expense s expense_id body = (s, .resp invalid_category_response) := by
  simp [update_expense, h1, h2]

/-- `create_expense` never answers the 400 category envelope once the
membership test passes. -/
lemma create_expense_not_invalid {s : Store} {today : String} {body : ExpenseBody}
    (h : optMem (pyGet body.category) VALID_EXPENSE_CATEGORIES = true) :
    (create_expense s today body).2 ≠ .resp invalid_category_response := by
  rcases hC : pyGet body.category with _ | c
  · rw [hC] at h; simp [optMem] at h
  · rw [hC] at h
    rcases hA : pyGet body.amount with _ | a <;>
      rcases hD : pyGet body.description with _ | d <;>
        simp [create_expense, h, hA, hC, hD, success_response,
          invalid_category_response]

/-- `update_expense` never answers the 400 category envelope once the
guard `category and category not in VALID_EXPENSE_CATEGORIES` is false. -/
lemma update_expense_not_invalid {s : Store} {expense_id : Nat} {body : ExpenseBody}
    (h : (pyTruthy (pyGet body.category) &&
          !(optMem (pyGet body.category) VALID_EXPENSE_CATEGORIES)) = false) :
    (update_expense s expense_id body).2 ≠ .resp invalid_category_response := by
  rcases hF : s.expenses.find? (fun r => r.id == expense_id) with _ | ex
  · simp [update_expense, h, hF, not_found_response, invalid_category_response]
  · rcases hA : pyGetD body.amount (some ex.amount) with _ | a <;>
      rcases hC : pyGetD body.category (some ex.category) with _ | c <;>
        rcases hD : pyGetD body.description (some ex.description) with _ | d <;>
          simp [update_expense, h, hF, hA, hC, hD, success_response,
            invalid_category_response]

/-- Case analysis of `update_expense`: either the store is untouched (the
400, 404 and IntegrityError outcomes), or a row `ex` was found and every
row carrying the requested id is overwritten by the merge of `ex` with the
body — the merged amount/category/description are non-null and the date is
always `ex.date`. -/
lemma update_expense_cases (s : Store) (expense_id : Nat) (body : ExpenseBody) :
    (update_expense s expense_id body).1 = s ∨
    ∃ ex a c d, s.expenses.find? (fun r => r.id == expense_id) = some ex ∧
      pyGetD body.amount (some ex.amount) = some a ∧
      pyGetD body.category (some ex.category) = some c ∧
      pyGetD body.description (some ex.description) = some d ∧
      (pyTruthy (pyGet body.category) &&
        !(optMem (pyGet body.category) VALID_EXPENSE_CATEGORIES)) = false ∧
      (update_expense s expense_id body).1.expenses = s.expenses.map (fun r =>
        if r.id == expense_id
        then ⟨r.id, pyGetD body.user_id ex.user_id, pyGetD body.title ex.title,
              a, c, ex.date, d⟩ else r) := by
  by_cases hg : (pyTruthy (pyGet body.category) &&
      !(optMem (pyGet body.category) VALID_EXPENSE_CATEGORIES)) = true
  · left; simp [update_expense, hg]
  · rw [Bool.not_eq_true] at hg
    rcases hF : s.expenses.find? (fun r => r.id == expense_id) with _ | ex
    · left; simp [update_expense, hg, hF]
    · rcases hA : pyGetD body.amount (some ex.amount) with _ | a
      · left; simp [update_expense, hg, hF, hA]
      · rcases hC : pyGetD body.category (some ex.category) with _ | c
        · left; simp [update_expense, hg, hF, hA, hC]
        · rcases hD : pyGetD body.description (some ex.description) with _ | d
          · left; simp [update_expense, hg, hF, hA, hC, hD]
          · right
            exact ⟨ex, a, c, d, hF, hA, hC, hD, hg,
              by simp [update_expense, hg, hF, hA, hC, hD]⟩

/-- The single row of `foodStore`. -/
def foodRow : ExpenseRow :=
  ⟨1, some 1, some "Lunch", "25.50", "Food", "2026-10-12", "Business lunch"⟩

/-- The row of `foodStore` after an amount-only update to `"30.00"`. -/
def foodRowUpdated : ExpenseRow :=
  ⟨1, some 1, some "Lunch", "30.00", "Food", "2026-10-12", "Business lunch"⟩

/-- C1 (counterexample): the claim fails — an update whose body carries
`"category": ""` skips the truthiness-guarded validation and persists the
empty string, which is outside the valid set, with a 200 success answer. -/
theorem c1_empty_category_counterexample :
    ((update_expense (create_expense Store.empty "2026-10-12" foodBody).1 1
        ⟨none, none, none, some (some ""), none, none⟩).1.expenses.map
          (fun e => e.category) = [""])
    ∧ "" ∉ VALID_EXPENSE_CATEGORIES
    ∧ (update_expense (create_expense Store.empty "2026-10-12" foodBody).1 1
        ⟨none, none, none, some (some ""), none, none⟩).2
      = .resp (success_response "Expense updated successfully" .dnull) := by
  decide

/-- C1 (amended): every create keeps all stored categories in
`VALID_EXPENSE_CATEGORIES`, and every update does too provided the request
body does not carry the category key with the empty-string value (the one
falsy string, which bypasses the `if category` guard and is persisted). -/
theorem c1_category_invariant :
    (∀ (s : Store) (today : String) (body : ExpenseBody),
      (∀ e ∈ s.expenses, e.category ∈ VALID_EXPENSE_CATEGORIES) →
      ∀ e ∈ (create_expense s today body).1.expenses,
        e.category ∈ VALID_EXPENSE_CATEGORIES)
    ∧ (∀ (s : Store) (expense_id : Nat) (body : ExpenseBody),
      (∀ e ∈ s.expenses, e.category ∈ VALID_EXPENSE_CATEGORIES) →
      body.category ≠ some (some "") →
      ∀ e ∈ (update_expense s expense_id body).1.expenses,
        e.category ∈ VALID_EXPENSE_CATEGORIES) := by
  constructor
  · intro s today body hinv e he
    by_cases hm : optMem (pyGet body.category) VALID_EXPENSE_CATEGORIES = true
    · rcases hC : pyGet body.category with _ | c
      · rw [hC] at hm; simp [optMem] at hm
      · rw [hC] at hm
        have hcmem : c ∈ VALID_EXPENSE_CATEGORIES := by simpa [optMem] using hm
        rcases hA : pyGet body.amount with _ | a
        · simp [create_expense, hm, hC, hA] at he
          exact hinv e he
        · rcases hD : pyGet body.description with _ | d
          · simp [create_expense, hm, hC, hA, hD] at he
            exact hinv e he
          · simp [create_expense, hm, hC, hA, hD] at he
            rcases he with he | he
            · exact hinv e he
            · rw [he]; simpa using hcmem
    · rw [Bool.not_eq_true] at hm
      rw [create_expense_rejects hm] at he
      exact hinv e he
  · intro s expense_id body hinv hne e he
    rcases update_expense_cases s expense_id body with
      hcase | ⟨ex, a, c, d, hF, hA, hC, hD, hg, hexp⟩
    · rw [hcase] at he; exact hinv e he
    · rw [hexp] at he
      rcases List.mem_map.mp he with ⟨r, hr, hfr⟩
      by_cases hid : (r.id == expense_id) = true
      · rw [if_pos hid] at hfr
        have hcmem : c ∈ VALID_EXPENSE_CATEGORIES := by
          rcases hbc : body.category with _ | oc
          · rw [hbc] at hC
            simp only [pyGetD, Option.getD_none, Option.some.injEq] at hC
            have hexmem := List.mem_of_find?_eq_some hF
            exact hC ▸ hinv ex hexmem
          · rcases oc with _ | t
            · rw [hbc] at hC; simp [pyGetD] at hC
            · have ht : t ≠ "" := by
                intro habs; apply hne; rw [hbc, habs]
              rw [hbc] at hC
              simp only [pyGetD, Option.getD_some, Option.some.injEq] at hC
              rw [hbc] at hg
              simp [pyGet, pyTruthy, ht] at hg
              rw [← hC]
              simpa [optMem] using hg
        rw [← hfr]; simpa using hcmem
      · rw [if_neg hid] at hfr
        rw [← hfr]; exact hinv r hr

/-- C1 (witness): concrete instances — the row created with `"Food"`, and
the row after an amount-only update, both keep a valid category. -/
theorem c1_category_invariant_witness :
    foodRow.category ∈ VALID_EXPENSE_CATEGORIES
    ∧ foodRowUpdated.category ∈ VALID_EXPENSE_CATEGORIES :=
  ⟨c1_category_invariant.1 Store.empty "2026-10-12" foodBody (by decide)
      foodRow (by decide),
   c1_category_invariant.2 foodStore 1 (amountOnlyBody "30.00") (by decide)
      (by decide) foodRowUpdated (by decide)⟩

/-- C2: updating with a body that carries only `amount` replaces only the
amount — title, description, category, date and user_id all come from the
stored row — and, for every update body whatsoever, every resulting date
already belonged to a stored row with the same id (the date is never taken
from the partial input). -/
theorem c2_update_amount_frame :
    (∀ (s : Store) (expense_id : Nat) (ex : ExpenseRow) (a : String),
      s.expenses.find? (fun r => r.id == expense_id) = some ex →
      (update_expense s expense_id (amountOnlyBody a)).1.expenses
        = s.expenses.map (fun r => if r.id == expense_id
            then ⟨r.id, ex.user_id, ex.title, a, ex.category, ex.date,
                  ex.description⟩ else r)
      ∧ (update_expense s expense_id (amountOnlyBody a)).2
        = .resp (success_response "Expense updated successfully" .dnull))
    ∧ (∀ (s : Store) (expense_id : Nat) (body : ExpenseBody) (e : ExpenseRow),
      e ∈ (update_expense s expense_id body).1.expenses →
      ∃ r ∈ s.expenses, r.id = e.id ∧ e.date = r.date) := by
  constructor
  · intro s expense_id ex a hF
    constructor <;>
      simp [update_expense, amountOnlyBody, pyGet, pyGetD, pyTruthy, hF]
  · intro s expense_id body e he
    rcases update_expense_cases s expense_id body with
      hcase | ⟨ex, a, c, d, hF, hA, hC, hD, hg, hexp⟩
    · rw [hcase] at he; exact ⟨e, he, rfl, rfl⟩
    · rw [hexp] at he
      rcases List.mem_map.mp he with ⟨r, hr, hfr⟩
      by_cases hid : (r.id == expense_id) = true
      · rw [if_pos hid] at hfr
        refine ⟨ex, List.mem_of_find?_eq_some hF, ?_, ?_⟩
        · have h1 : ex.id = expense_id := by
            simpa using List.find?_some hF
          have h2 : r.id = expense_id := by simpa using hid
          rw [← hfr, h1, h2]
        · rw [← hfr]
      · rw [if_neg hid] at hfr
        exact ⟨r, hr, by rw [← hfr], by rw [← hfr]⟩

/-- C2 (witness): the concrete amount-only update on `foodStore` yields
exactly the stored row with the new amount, and the concrete date is
carried over. -/
theorem c2_update_amount_frame_witness :
    ((update_expense foodStore 1 (amountOnlyBody "30.00")).1.expenses
      = foodStore.expenses.map (fun r => if r.id == 1
          then ⟨r.id, foodRow.user_id, foodRow.title, "30.00",
                foodRow.category, foodRow.date, foodRow.description⟩ else r))
    ∧ ∃ r ∈ foodStore.expenses, r.id = foodRowUpdated.id
        ∧ foodRowUpdated.date = r.date :=
  ⟨(c2_update_amount_frame.1 foodStore 1 foodRow "30.00" (by decide)).1,
   c2_update_amount_frame.2 foodStore 1 (amountOnlyBody "30.00")
     foodRowUpdated (by decide)⟩

/-- C3 (counterexample): the claim fails on absent input — a body with no
category key is rejected by the create path (`None not in [...]` is true,
so 400) but accepted by the update path (`if category` is falsy, so the
validation is skipped and the update succeeds). -/
theorem c3_absent_category_counterexample :
    (create_expense Store.empty "2026-10-12"
        ⟨none, none, none, none, none, none⟩).2 = .resp invalid_category_response
    ∧ (update_expense foodStore 1 ⟨none, none, none, none, none, none⟩).2
      = .resp (success_response "Expense updated successfully" .dnull) := by
  decide

/-- C3 (amended): restricted to a category that is present and truthy (a
non-empty string), the create path and the update path agree — each rejects
with the 400 category envelope exactly when the other does; they disagree
on absent, null and empty-string categories, which update accepts and
create rejects. -/
theorem c3_validation_agreement (c : String) (hc : c ≠ "")
    (s t : Store) (today : String) (expense_id : Nat) (bC bU : ExpenseBody)
    (hbC : bC.category = some (some c)) (hbU : bU.category = some (some c)) :
    (create_expense s today bC).2 = .resp invalid_category_response ↔
    (update_expense t expense_id bU).2 = .resp invalid_category_response := by
  have hgC : pyGet bC.category = some c := by rw [hbC]; rfl
  have hgU : pyGet bU.category = some c := by rw [hbU]; rfl
  by_cases hm : c ∈ VALID_EXPENSE_CATEGORIES
  · have hoptC : optMem (pyGet bC.category) VALID_EXPENSE_CATEGORIES = true := by
      rw [hgC]; simpa [optMem] using hm
    have hoptU : optMem (pyGet bU.category) VALID_EXPENSE_CATEGORIES = true := by
      rw [hgU]; simpa [optMem] using hm
    refine ⟨fun h => absurd h (create_expense_not_invalid hoptC),
            fun h => absurd h (update_expense_not_invalid ?_)⟩
    simp [hoptU]
  · have hoptC : optMem (pyGet bC.category) VALID_EXPENSE_CATEGORIES = false := by
      rw [hgC]; simpa [optMem] using hm
    have hoptU : optMem (pyGet bU.category) VALID_EXPENSE_CATEGORIES = false := by
      rw [hgU]; simpa [optMem] using hm
    have htr : pyTruthy (pyGet bU.category) = true := by
      rw [hgU]; simp [pyTruthy, hc]
    have hL : (create_expense s today bC).2 = .resp invalid_category_response := by
      rw [create_expense_rejects hoptC]
    have hR : (update_expense t expense_id bU).2
        = .resp invalid_category_response := by
      rw [update_expense_rejects htr hoptU]
    exact ⟨fun _ => hR, fun _ => hL⟩

/-- C3 (witness): the agreement instantiated at the truthy invalid
category `"Snacks"` — both paths reject it. -/
theorem c3_validation_agreement_witness :
    (create_expense Store.empty "2026-10-12" snacksBody).2
      = .resp invalid_category_response ↔
    (update_expense foodStore 1 snacksBody).2
      = .resp invalid_category_response :=
  c3_validation_agreement "Snacks" (by decide) Store.empty foodStore
    "2026-10-12" 1 snacksBody snacksBody rfl rfl

/-- C4 (counterexample): the claim fails — both successful registration and
successful expense creation answer HTTP 200 (the shared `success_response`
envelope), not 201. -/
theorem c4_status_200_counterexample :
    (register_user Store.empty ⟨some (some "alice"), some (some "pw")⟩).2
      = .resp (200, ⟨true, "User registered successfully", some .dnull⟩)
    ∧ (create_expense Store.empty "2026-10-12" foodBody).2
      = .resp (200, ⟨true, "Expense created successfully", some .dnull⟩)
    ∧ (200 : Nat) ≠ 201 := by
  decide

/-- C4 (amended): a successful POST /api/register answers the envelope
"User registered successfully" and a successful POST /api/expenses answers
the envelope "Expense created successfully" — both through
`success_response`, whose status code is 200, not 201. -/
theorem c4_create_success_envelopes :
    (∀ (s : Store) (body : UserBody) (u p : String),
      pyGet body.username = some u → pyGet body.password = some p →
      (∀ r ∈ s.users, r.username ≠ u) →
      (register_user s body).2
        = .resp (success_response "User registered successfully" .dnull))
    ∧ (∀ (s : Store) (today : String) (body : ExpenseBody) (a c d : String),
      pyGet body.amount = some a → pyGet body.category = some c →
      c ∈ VALID_EXPENSE_CATEGORIES → pyGet body.description = some d →
      (create_expense s today body).2
        = .resp (success_response "Expense created successfully" .dnull))
    ∧ (success_response "User registered successfully" .dnull).1 = 200
    ∧ (success_response "Expense created successfully" .dnull).1 = 200 := by
  refine ⟨?_, ?_, rfl, rfl⟩
  · intro s body u p hu hp hfresh
    have hany : s.users.any (fun r => r.username == u) = false := by
      rw [List.any_eq_false]; intro r hr; simpa using hfresh r hr
    simp [register_user, hu, hp, hany]
  · intro s today body a c d ha hc hmem hd
    have hopt : optMem (some c) VALID_EXPENSE_CATEGORIES = true := by
      simpa [optMem] using hmem
    simp [create_expense, ha, hc, hd, hopt]

/-- C4 (witness): both envelopes at concrete requests on a fresh store. -/
theorem c4_create_success_envelopes_witness :
    (register_user Store.empty ⟨some (some "alice"), some (some "pw")⟩).2
      = .resp (success_response "User registered successfully" .dnull)
    ∧ (create_expense Store.empty "2026-10-12" foodBody).2
      = .resp (success_response "Expense created successfully" .dnull) :=
  ⟨c4_create_success_envelopes.1 Store.empty
      ⟨some (some "alice"), some (some "pw")⟩ "alice" "pw" rfl rfl (by decide),
   c4_create_success_envelopes.2.1 Store.empty "2026-10-12" foodBody
      "25.50" "Food" "Business lunch" rfl rfl (by decide) rfl⟩

/-- C5: a login that fails because the username matches no stored user and
a login that fails because the stored password differs both produce exactly
the 401 `{success: false, message: "Invalid Credentials"}` outcome — the
two failure responses are equal, revealing nothing about which usernames
exist. -/
theorem c5_login_failure_uniform (s1 s2 : Store) (b1 b2 : UserBody) (u : UserRow)
    (h1 : s1.users.find? (fun r => some r.username == pyGet b1.username) = none)
    (h2 : s2.users.find? (fun r => some r.username == pyGet b2.username) = some u)
    (h3 : some u.password ≠ pyGet b2.password) :
    (login_user s1 b1).2 = .resp (401, ⟨false, "Invalid Credentials", none⟩)
    ∧ (login_user s2 b2).2 = (login_user s1 b1).2 := by
  have e1 : (login_user s1 b1).2 = .resp invalid_credentials_response := by
    simp [login_user, h1]
  have e2 : (login_user s2 b2).2 = .resp invalid_credentials_response := by
    simp [login_user, h2, h3]
  exact ⟨by rw [e1]; rfl, by rw [e1, e2]⟩

/-- C5 (witness): unknown user "ghost" on an empty store versus wrong
password for the registered "alice" — equal 401 outcomes. -/
theorem c5_login_failure_uniform_witness :
    (login_user Store.empty ⟨some (some "ghost"), some (some "x")⟩).2
      = .resp (401, ⟨false, "Invalid Credentials", none⟩)
    ∧ (login_user
        (register_user Store.empty ⟨some (some "alice"), some (some "pw")⟩).1
        ⟨some (some "alice"), some (some "wrong")⟩).2
      = (login_user Store.empty ⟨some (some "ghost"), some (some "x")⟩).2 :=
  c5_login_failure_uniform Store.empty
    (register_user Store.empty ⟨some (some "alice"), some (some "pw")⟩).1
    ⟨some (some "ghost"), some (some "x")⟩
    ⟨some (some "alice"), some (some "wrong")⟩
    ⟨1, "alice", "pw"⟩ (by decide) (by decide) (by decide)

/-- C6: `create_expense` never reads a caller-supplied date — changing the
body's date key changes nothing — and every expense present after a create
either was already stored or carries the creation day as its date. -/
theorem c6_create_date_today :
    (∀ (s : Store) (today : String) (body : ExpenseBody)
        (d : Option (Option String)),
      create_expense s today { body with date := d }
        = create_expense s today body)
    ∧ (∀ (s : Store) (today : String) (body : ExpenseBody) (e : ExpenseRow),
      e ∈ (create_expense s today body).1.expenses →
      e ∈ s.expenses ∨ e.date = today) := by
  constructor
  · intro s today body d
    cases body
    rfl
  · intro s today body e he
    by_cases hm : optMem (pyGet body.category) VALID_EXPENSE_CATEGORIES = true
    · rcases hC : pyGet body.category with _ | c
      · rw [hC] at hm; simp [optMem] at hm
      · rw [hC] at hm
        rcases hA : pyGet body.amount with _ | a
        · simp [create_expense, hm, hC, hA] at he
          exact Or.inl he
        · rcases hD : pyGet body.description with _ | d
          · simp [create_expense, hm, hC, hA, hD] at he
            exact Or.inl he
          · simp [create_expense, hm, hC, hA, hD] at he
            rcases he with he | he
            · exact Or.inl he
            · right; rw [he]
    · rw [Bool.not_eq_true] at hm
      rw [create_expense_rejects hm] at he
      exact Or.inl he

/-- C6 (witness): a caller-supplied date `"1999-01-01"` is ignored on the
concrete create, and the concrete created row carries the creation day. -/
theorem c6_create_date_today_witness :
    create_expense Store.empty "2026-10-12"
        { foodBody with date := some (some "1999-01-01") }
      = create_expense Store.empty "2026-10-12" foodBody
    ∧ (foodRow ∈ Store.empty.expenses ∨ foodRow.date = "2026-10-12") :=
  ⟨c6_create_date_today.1 Store.empty "2026-10-12" foodBody
      (some (some "1999-01-01")),
   c6_create_date_today.2 Store.empty "2026-10-12" foodBody foodRow (by decide)⟩

/-- C7 (counterexample): the claim fails for the expense update path — on
an id that names no record, a body whose category is truthy and invalid is
answered with the 400 category envelope (validation runs before the
existence check), not with the NotFound outcome. -/
theorem c7_invalid_category_counterexample :
    update_expense Store.empty 1 snacksBody
      = (Store.empty, .resp invalid_category_response)
    ∧ Outcome.resp invalid_category_response
      ≠ .resp (not_found_response "Expense") := by
  decide

/-- C7 (amended): on an id naming no record, user update, user delete and
expense delete answer NotFound with no write; expense update does too
provided the body passes the category guard (which otherwise answers 400
first, still with no write); and deleting the same user or expense twice
yields success then NotFound. -/
theorem c7_notfound_no_write :
    (∀ (s : Store) (user_id : Nat) (body : UserBody),
      s.users.find? (fun r => r.id == user_id) = none →
      update_user s user_id body = (s, .resp (not_found_response "User")))
    ∧ (∀ (s : Store) (user_id : Nat),
      s.users.find? (fun r => r.id == user_id) = none →
      delete_user s user_id = (s, .resp (not_found_response "User")))
    ∧ (∀ (s : Store) (expense_id : Nat) (body : ExpenseBody),
      s.expenses.find? (fun r => r.id == expense_id) = none →
      (pyTruthy (pyGet body.category) &&
        !(optMem (pyGet body.category) VALID_EXPENSE_CATEGORIES)) = false →
      update_expense s expense_id body
        = (s, .resp (not_found_response "Expense")))
    ∧ (∀ (s : Store) (expense_id : Nat),
      s.expenses.find? (fun r => r.id == expense_id) = none →
      delete_expense s expense_id = (s, .resp (not_found_response "Expense")))
    ∧ (∀ (s : Store) (user_id : Nat) (u : UserRow),
      s.users.find? (fun r => r.id == user_id) = some u →
      (delete_user s user_id).2
          = .resp (success_response "User deleted successfully" .dnull)
        ∧ (delete_user (delete_user s user_id).1 user_id).2
          = .resp (not_found_response "User"))
    ∧ (∀ (s : Store) (expense_id : Nat) (ex : ExpenseRow),
      s.expenses.find? (fun r => r.id == expense_id) = some ex →
      (delete_expense s expense_id).2
          = .resp (success_response "Expense deleted successfully" .dnull)
        ∧ (delete_expense (delete_expense s expense_id).1 expense_id).2
          = .resp (not_found_response "Expense")) := by
  refine ⟨?_, ?_, ?_, ?_, ?_, ?_⟩
  · intro s user_id body hF
    simp [update_user, hF]
  · intro s user_id hF
    simp [delete_user, hF]
  · intro s expense_id body hF hg
    simp [update_expense, hg, hF]
  · intro s expense_id hF
    simp [delete_expense, hF]
  · intro s user_id u hF
    have h2 : (s.users.filter (fun r => !(r.id == user_id))).find?
        (fun r => r.id == user_id) = none :=
      find?_filter_not s.users (fun r => r.id == user_id)
    exact ⟨by simp [delete_user, hF], by simp [delete_user, hF, h2]⟩
  · intro s expense_id ex hF
    have h2 : (s.expenses.filter (fun r => !(r.id == expense_id))).find?
        (fun r => r.id == expense_id) = none :=
      find?_filter_not s.expenses (fun r => r.id == expense_id)
    exact ⟨by simp [delete_expense, hF], by simp [delete_expense, hF, h2]⟩

/-- C7 (witness): concrete NotFound answers on an empty store, and a
concrete double delete on `foodStore`. -/
theorem c7_notfound_no_write_witness :
    update_user Store.empty 5 ⟨some (some "x"), some (some "y")⟩
      = (Store.empty, .resp (not_found_response "User"))
    ∧ delete_user Store.empty 5 = (Store.empty, .resp (not_found_response "User"))
    ∧ update_expense Store.empty 5 (amountOnlyBody "1.00")
      = (Store.empty, .resp (not_found_response "Expense"))
    ∧ delete_expense Store.empty 5
      = (Store.empty, .resp (not_found_response "Expense"))
    ∧ ((delete_expense foodStore 1).2
        = .resp (success_response "Expense deleted successfully" .dnull)
      ∧ (delete_expense (delete_expense foodStore 1).1 1).2
        = .resp (not_found_response "Expense")) :=
  ⟨c7_notfound_no_write.1 Store.empty 5 ⟨some (some "x"), some (some "y")⟩
      (by decide),
   c7_notfound_no_write.2.1 Store.empty 5 (by decide),
   c7_notfound_no_write.2.2.1 Store.empty 5 (amountOnlyBody "1.00")
      (by decide) (by decide),
   c7_notfound_no_write.2.2.2.1 Store.empty 5 (by decide),
   c7_notfound_no_write.2.2.2.2.2 foodStore 1 foodRow (by decide)⟩

/-- C8: a create whose `data.get("category")` fails the membership test (a
string outside the fixed set, null, or an absent key) is answered 400 with
exactly `{success: false, message: "Invalid category. Must be one of:
Food, Education, Entertainment"}` and the store is unchanged. -/
theorem c8_create_invalid_category (s : Store) (today : String)
    (body : ExpenseBody)
    (h : optMem (pyGet body.category) VALID_EXPENSE_CATEGORIES = false) :
    create_expense s today body = (s, .resp invalid_category_response)
    ∧ invalid_category_response
      = (400, ⟨false,
          "Invalid category. Must be one of: Food, Education, Entertainment",
          none⟩) :=
  ⟨create_expense_rejects h, by decide⟩

/-- C8 (witness): the concrete `"Snacks"` create on a fresh store. -/
theorem c8_create_invalid_category_witness :
    create_expense Store.empty "2026-10-12" snacksBody
      = (Store.empty, .resp invalid_category_response)
    ∧ invalid_category_response
      = (400, ⟨false,
          "Invalid category. Must be one of: Food, Education, Entertainment",
          none⟩) :=
  c8_create_invalid_category Store.empty "2026-10-12" snacksBody (by decide)

/-- C9: registering a fresh username and fetching the user at the assigned
id answers the envelope whose payload is exactly `{id, username}` with the
registered username — in particular the password key never appears. -/
theorem c9_register_get_roundtrip (s : Store) (u p : String)
    (hfresh : ∀ r ∈ s.users, r.username ≠ u)
    (hid : ∀ r ∈ s.users, r.id ≠ s.nextUserId) :
    get_user (register_user s ⟨some (some u), some (some p)⟩).1 s.nextUserId
      = .resp (success_response "User retrieved successfully"
          (.dobj [("id", .vint (Int.ofNat s.nextUserId)),
                  ("username", .vstr u)])) := by
  have hany : s.users.any (fun r => r.username == u) = false := by
    rw [List.any_eq_false]; intro r hr; simpa using hfresh r hr
  have hreg : (register_user s ⟨some (some u), some (some p)⟩).1
      = { s with users := s.users ++ [⟨s.nextUserId, u, p⟩],
                 nextUserId := s.nextUserId + 1 } := by
    simp [register_user, pyGet, hany]
  rw [hreg]
  have hfind : (s.users ++ [⟨s.nextUserId, u, p⟩] : List UserRow).find?
      (fun r => r.id == s.nextUserId) = some ⟨s.nextUserId, u, p⟩ := by
    apply find?_append_single
    · intro a ha; simpa using hid a ha
    · simp
  simp [get_user, hfind]

/-- C9 (witness): registering "alice" in a fresh store and fetching id 1. -/
theorem c9_register_get_roundtrip_witness :
    get_user (register_user Store.empty
        ⟨some (some "alice"), some (some "pw")⟩).1 1
      = .resp (success_response "User retrieved successfully"
          (.dobj [("id", .vint 1), ("username", .vstr "alice")])) :=
  c9_register_get_roundtrip Store.empty "alice" "pw" (by decide) (by decide)

/-- C10 (counterexample): the claim fails for NOT NULL columns — a body
carrying `"amount": null` is not stored as null: the UPDATE violates the
schema's NOT NULL constraint, the handler raises IntegrityError, and the
stored amount is unchanged. -/
theorem c10_null_amount_counterexample :
    update_expense foodStore 1 ⟨none, none, some none, none, none, none⟩
      = (foodStore, .raised "IntegrityError")
    ∧ foodStore.expenses.map (fun e => e.amount) = ["25.50"] := by
  decide

/-- C10 (amended): a key present with a null value is passed to the write
rather than treated as omitted — for the nullable columns title and
user_id the null replaces the stored value; for the NOT NULL columns
amount, category and description the write raises IntegrityError and the
record is unchanged; only absent keys fall back to stored values, except
the date key, which is ignored whether present or absent. -/
theorem c10_null_field_passthrough :
    (∀ (s : Store) (expense_id : Nat) (ex : ExpenseRow),
      s.expenses.find? (fun r => r.id == expense_id) = some ex →
      (update_expense s expense_id
          ⟨some none, none, none, none, none, none⟩).1.expenses
        = s.expenses.map (fun r => if r.id == expense_id
            then ⟨r.id, ex.user_id, none, ex.amount, ex.category, ex.date,
                  ex.description⟩ else r)
      ∧ (update_expense s expense_id
          ⟨some none, none, none, none, none, none⟩).2
        = .resp (success_response "Expense updated successfully" .dnull))
    ∧ (∀ (s : Store) (expense_id : Nat) (ex : ExpenseRow),
      s.expenses.find? (fun r => r.id == expense_id) = some ex →
      (update_expense s expense_id
          ⟨none, none, none, none, some none, none⟩).1.expenses
        = s.expenses.map (fun r => if r.id == expense_id
            then ⟨r.id, none, ex.title, ex.amount, ex.category, ex.date,
                  ex.description⟩ else r)
      ∧ (update_expense s expense_id
          ⟨none, none, none, none, some none, none⟩).2
        = .resp (success_response "Expense updated successfully" .dnull))
    ∧ (∀ (s : Store) (expense_id : Nat) (ex : ExpenseRow),
      s.expenses.find? (fun r => r.id == expense_id) = some ex →
      update_expense s expense_id ⟨none, none, some none, none, none, none⟩
        = (s, .raised "IntegrityError"))
    ∧ (∀ (s : Store) (expense_id : Nat) (ex : ExpenseRow),
      s.expenses.find? (fun r => r.id == expense_id) = some ex →
      update_expense s expense_id ⟨none, none, none, some none, none, none⟩
        = (s, .raised "IntegrityError"))
    ∧ (∀ (s : Store) (expense_id : Nat) (ex : ExpenseRow),
      s.expenses.find? (fun r => r.id == expense_id) = some ex →
      update_expense s expense_id ⟨none, some none, none, none, none, none⟩
        = (s, .raised "IntegrityError"))
    ∧ (∀ (s : Store) (expense_id : Nat) (body : ExpenseBody)
        (d : Option (Option String)),
      update_expense s expense_id { body with date := d }
        = update_expense s expense_id body) := by
  refine ⟨?_, ?_, ?_, ?_, ?_, ?_⟩
  · intro s expense_id ex hF
    constructor <;> simp [update_expense, pyGet, pyGetD, pyTruthy, hF]
  · intro s expense_id ex hF
    constructor <;> simp [update_expense, pyGet, pyGetD, pyTruthy, hF]
  · intro s expense_id ex hF
    simp [update_expense, pyGet, pyGetD, pyTruthy, hF]
  · intro s expense_id ex hF
    simp [update_expense, pyGet, pyGetD, pyTruthy, hF]
  · intro s expense_id ex hF
    simp [update_expense, pyGet, pyGetD, pyTruthy, hF]
  · intro s expense_id body d
    cases body
    rfl

/-- C10 (witness): the null-title update and the null-amount failure on the
concrete `foodStore`, plus concrete date-key indifference. -/
theorem c10_null_field_passthrough_witness :
    ((update_expense foodStore 1
        ⟨some none, none, none, none, none, none⟩).1.expenses
      = foodStore.expenses.map (fun r => if r.id == 1
          then ⟨r.id, foodRow.user_id, none, foodRow.amount, foodRow.category,
                foodRow.date, foodRow.description⟩ else r))
    ∧ update_expense foodStore 1 ⟨none, none, some none, none, none, none⟩
      = (foodStore, .raised "IntegrityError")
    ∧ update_expense foodStore 1
        { amountOnlyBody "30.00" with date := some (some "1999-01-01") }
      = update_expense foodStore 1 (amountOnlyBody "30.00") :=
  ⟨(c10_null_field_passthrough.1 foodStore 1 foodRow (by decide)).1,
   c10_null_field_passthrough.2.2.1 foodStore 1 foodRow (by decide),
   c10_null_field_passthrough.2.2.2.2.2 foodStore 1 (amountOnlyBody "30.00")
     (some (some "1999-01-01"))⟩

end BudgetManager
